import Mathlib

/-!
Verification development for the `unique_benchmarking` experiment execution
and aggregation pipeline.

The Python sources are shallowly embedded:

* `src/unique_benchmarking/schemas.py` — the pydantic result models
  (`Message`, `ExperimentResult`, `ExperimentSummary`, nested debug-info
  models).  The executor additionally imports `GoldenAnswer` and
  `QuestionResult` from the `schemas` module and passes a
  `question_results` keyword to `ExperimentSummary`; those declarations are
  absent from the copy of `schemas.py` in the repository, so they are
  modelled from the spec (section 3) and from the constructor calls in
  `experiment_executor.py` (doc comments on the definitions say so).
* `src/unique_benchmarking/experiment_executor.py` — the file-backed
  executor (`run_single_experiment`, `process_question_round`,
  `run_full_experiment`).  External effects are made explicit: the chat
  client is a function argument producing either a transcript or a raised
  exception message, durable writes become an explicit artifact trace, and
  wall-clock readings are arguments.
* `src/unique_benchmarking/experiments/eval_assistants/models.py` and
  `.../management/commands/run_experiment.py` — the database-backed runner.
  The database is explicit state (lists of rows); unique constraints are
  checked on insert and violations surface as `Except.error`, mirroring the
  `IntegrityError` Django raises.

Machine floats are modelled as rationals (`ℚ`), Python ints as `Int`/`Nat`,
and `sha256` digests are identified with the hashed strings (sha256 is
deterministic, and distinct inputs are assumed collision-free).
-/

/-- Json values as produced by `json.dump(model.model_dump())`: the durable
format of the file-backed executor.  Python ints and floats are kept as
distinct constructors, mirroring the distinct JSON encodings. -/
inductive Json where
  | null : Json
  | bool (b : Bool) : Json
  | int (n : Int) : Json
  | num (q : ℚ) : Json
  | str (s : String) : Json
  | arr (elems : List Json) : Json
  | obj (fields : List (String × Json)) : Json

/-- Lookup of a named field in a JSON object body, first match wins
(JSON objects written by `json.dump` have distinct keys). -/
def Json.lookupField : List (String × Json) → String → Option Json
  | [], _ => none
  | (k', v) :: rest, k => if k' = k then some v else Json.lookupField rest k

/-- Field access on a JSON value: models pydantic reading a named field
of the validated input dict. -/
def Json.getField : Json → String → Option Json
  | .obj fs, k => Json.lookupField fs k
  | _, _ => none

/-- Whether a JSON value is `null` (a serialized Python `None`). -/
def Json.isNull : Json → Bool
  | .null => true
  | _ => false

/-- Decode a string field. -/
def Json.asStr : Json → Option String
  | .str s => some s
  | _ => none

/-- Decode an int field. -/
def Json.asInt : Json → Option Int
  | .int n => some n
  | _ => none

/-- Decode a non-negative int field (pydantic `int` used as a count). -/
def Json.asNat : Json → Option Nat
  | .int n => if 0 ≤ n then some n.toNat else none
  | _ => none

/-- Decode a float field (floats are modelled as rationals). -/
def Json.asNum : Json → Option ℚ
  | .num q => some q
  | _ => none

/-- Decode a bool field. -/
def Json.asBool : Json → Option Bool
  | .bool b => some b
  | _ => none

/-- Encode an optional value, `None` becoming JSON `null`. -/
def Json.encodeOpt (f : α → Json) : Option α → Json
  | none => .null
  | some a => f a

/-- Decode an optional value: `null` maps to `None`, anything else must
decode with `g`. -/
def Json.decodeOpt (g : Json → Option α) (j : Json) : Option (Option α) :=
  if j.isNull then some none else (g j).map some

/-- Decode every element of a JSON array body. -/
def Json.decodeListAux (g : Json → Option α) : List Json → Option (List α)
  | [] => some []
  | j :: rest =>
    match g j, Json.decodeListAux g rest with
    | some a, some l => some (a :: l)
    | _, _ => none

/-- Decode a JSON array into a typed list. -/
def Json.decodeList (g : Json → Option α) : Json → Option (List α)
  | .arr xs => Json.decodeListAux g xs
  | _ => none

theorem Json.decodeListAux_map (f : α → Json) (g : Json → Option α)
    (h : ∀ a, g (f a) = some a) : ∀ l : List α, Json.decodeListAux g (l.map f) = some l := by
  intro l
  induction l with
  | nil => rfl
  | cons a rest ih => simp [Json.decodeListAux, h, ih]

theorem Json.decodeList_map (f : α → Json) (g : Json → Option α)
    (h : ∀ a, g (f a) = some a) (l : List α) :
    Json.decodeList g (.arr (l.map f)) = some l := by
  simpa [Json.decodeList] using Json.decodeListAux_map f g h l

theorem Json.decodeOpt_encodeOpt (f : α → Json) (g : Json → Option α)
    (hne : ∀ a, (f a).isNull = false) (h : ∀ a, g (f a) = some a) :
    ∀ o : Option α, Json.decodeOpt g (Json.encodeOpt f o) = some o := by
  intro o
  cases o with
  | none => rfl
  | some a => simp [Json.encodeOpt, Json.decodeOpt, hne a, h a]

/-- Lowercasing of a Python string: models `str.lower()` as used by the
`validate_role` field validator in `schemas.py`. -/
def strLower (s : String) : String := String.mk (s.data.map Char.toLower)

/-- Modelled external toolkit type `ContentReference`
(`unique_toolkit.chat.schemas`), with the fields this repository reads:
`sequence_number`, `name` and `url`. -/
structure ContentReference where
  name : String
  url : String
  sequence_number : Int
deriving DecidableEq

/-- Modelled external toolkit type `EvaluationAssessmentMessage`
(`unique_toolkit.evals.schemas`), with the fields this repository reads:
`label` and `explanation`. -/
structure EvaluationAssessmentMessage where
  label : String
  explanation : String
deriving DecidableEq

/-- TimeInfo of `schemas.py`: timing block of a debug-info tool. -/
structure TimeInfo where
  clean_time : ℚ
  crawl_time : ℚ
  total_time : ℚ
  search_time : ℚ
deriving DecidableEq

/-- SearchResult of `schemas.py`. -/
structure SearchResult where
  title : String
  url : String
  content : String
deriving DecidableEq

/-- DebugInfoTool of `schemas.py`. -/
structure DebugInfoTool where
  time_info : TimeInfo
  search_query : String
  date_restrict : String
  refined_query : String
  search_results : List SearchResult
  num_chunks_in_final_prompts : Int
deriving DecidableEq

/-- DebugInfo of `schemas.py`. -/
structure DebugInfo where
  tools : Option (List DebugInfoTool)
deriving DecidableEq

/-- The role literal of `Message` (`Literal["system", "user", "assistant"]`). -/
inductive Role where
  | system
  | user
  | assistant
deriving DecidableEq

/-- Serialized form of a role (pydantic dumps the literal string). -/
def Role.toStr : Role → String
  | .system => "system"
  | .user => "user"
  | .assistant => "assistant"

/-- Validation of a role value: `validate_role` lowercases the input before
the `Literal` check. -/
def Role.ofStr (s : String) : Option Role :=
  let t := strLower s
  if t = "system" then some .system
  else if t = "user" then some .user
  else if t = "assistant" then some .assistant
  else none

theorem Role.ofStr_toStr : ∀ r : Role, Role.ofStr (Role.toStr r) = some r := by
  intro r
  cases r <;> rfl

/-- Message of `schemas.py`: the normalized transcript of one assistant
response. -/
structure Message where
  id : String
  chatId : String
  text : Option String
  originalText : Option String
  role : Role
  debugInfo : Option DebugInfo
  completedAt : Option String
  createdAt : Option String
  updatedAt : Option String
  stoppedStreamingAt : Option String
  references : List ContentReference
  assessment : List EvaluationAssessmentMessage
deriving DecidableEq

/-- ExperimentResult of `schemas.py`: one (assistant, question) test. -/
structure ExperimentResult where
  test_id : Int
  assistant_id : String
  question : String
  success : Bool
  error : Option String
  execution_time : ℚ
  timestamp : String
  message : Option Message
deriving DecidableEq

/-- Modelled from the spec: the pydantic `GoldenAnswer` imported from the
`schemas` module by `experiment_executor.py` is missing from the copy of
`schemas.py` under the repository; its fields follow the constructor call in
`ExperimentExecutor.generate_golden_answer` and spec section 3. -/
structure GoldenAnswer where
  question : String
  answer : String
  model : String
  timestamp : String
  generation_time : ℚ
deriving DecidableEq

/-- Modelled from the spec: the pydantic `QuestionResult` imported from the
`schemas` module by `experiment_executor.py` is missing from the copy of
`schemas.py` under the repository; its fields follow the constructor call in
`ExperimentExecutor.process_question_round` and spec section 3. -/
structure QuestionResult where
  question_id : Int
  question : String
  golden_answer : Option GoldenAnswer
  assistant_results : List ExperimentResult
  total_assistants : Nat
  successful_assistants : Nat
  failed_assistants : Nat
  success_rate : ℚ
  total_execution_time : ℚ
deriving DecidableEq

/-- ExperimentSummary of `schemas.py`.  Modelled from the spec: the copy of
`schemas.py` under the repository omits the `question_results` field that
`ExperimentExecutor.run_full_experiment` passes to the constructor and that
spec section 3 lists for the durable final artifact; the field is included
here following those two witnesses. -/
structure ExperimentSummary where
  total_tests : Nat
  completed_tests : Nat
  failed_tests : Nat
  success_rate : ℚ
  total_execution_time : ℚ
  start_time : String
  end_time : Option String
  results : List ExperimentResult
  question_results : List QuestionResult
  experiment_directory : Option String
deriving DecidableEq

/-- Outcome of one external chat call (`send_message_and_wait_for_completion`
followed by `Message.model_validate` and `optimize_text`): either the
validated, text-optimized transcript or the message of the raised exception,
together with the measured duration and the `datetime.now().isoformat()`
reading taken when the result object is built. -/
structure CallOutcome where
  response : Except String Message
  duration : ℚ
  stamp : String

/-- The external chat client, indexed by assistant id and question. -/
def ChatClient := String → String → CallOutcome

/-- ExperimentExecutor.run_single_experiment: returns
`(message, error, execution_time)`; the try/except converts a raised
exception into `(None, str(e), elapsed)`. -/
def run_single_experiment (client : ChatClient) (assistant_id question : String) :
    Option Message × Option String × ℚ :=
  match client assistant_id question with
  | ⟨.ok m, t, _⟩ => (some m, none, t)
  | ⟨.error e, t, _⟩ => (none, some e, t)

/-- The `ExperimentResult` built for assistant number `idx1` (1-based) in
`ExperimentExecutor.process_question_round`: `test_id` is
`(question_id - 1) * len(assistant_ids) + i` and `success` is
`message is not None`. -/
def mk_round_result (client : ChatClient) (question : String) (question_id : Int)
    (count : Nat) (idx1 : Nat) (assistant_id : String) : ExperimentResult :=
  let r := run_single_experiment client assistant_id question
  { test_id := (question_id - 1) * (count : Int) + (idx1 : Int)
  , assistant_id := assistant_id
  , question := question
  , success := r.1.isSome
  , error := r.2.1
  , execution_time := r.2.2
  , timestamp := (client assistant_id question).stamp
  , message := r.1 }

/-- The assistant loop of `process_question_round`
(`for i, assistant_id in enumerate(assistant_ids, 1)`), unrolled with the
running 1-based index `idx1`. -/
def round_results_aux (client : ChatClient) (question : String) (question_id : Int)
    (count : Nat) : List String → Nat → List ExperimentResult
  | [], _ => []
  | aid :: rest, idx1 =>
    mk_round_result client question question_id count idx1 aid ::
      round_results_aux client question question_id count rest (idx1 + 1)

/-- The full list of per-assistant results of one question round. -/
def round_results (client : ChatClient) (question : String) (question_id : Int)
    (assistant_ids : List String) : List ExperimentResult :=
  round_results_aux client question question_id assistant_ids.length assistant_ids 1

/-- The golden-answer generator of the executor
(`ExperimentExecutor.generate_golden_answer`): returns the generated
`GoldenAnswer` or `None` when the completion call raised. -/
def GoldenGen := String → Option GoldenAnswer

/-- Durable writes performed by the executor, in program order: directory
creation, the configuration file, golden-answer files, individual result
files, question-round files and the final summary file. -/
inductive Artifact where
  | dirCreated (assistant_ids : List String) (questions : List String)
  | configSaved (assistant_ids : List String) (questions : List String) (total : Nat)
  | goldenSaved (question_id : Int)
  | resultSaved (r : ExperimentResult)
  | roundSaved (qr : QuestionResult)
  | summarySaved (s : ExperimentSummary)
deriving DecidableEq

/-- ExperimentExecutor.process_question_round: golden-answer phase, the
assistant loop, aggregation, and the round save.  Returns the aggregated
`QuestionResult` together with the trace of durable writes of the round. -/
def process_question_round (golden : GoldenGen) (client : ChatClient)
    (question : String) (question_id : Int) (assistant_ids : List String) :
    QuestionResult × List Artifact :=
  let ga := golden question
  let rs := round_results client question question_id assistant_ids
  let succ := rs.countP (·.success)
  let fl := rs.length - succ
  let rate : ℚ := if rs ≠ [] then (succ : ℚ) / (rs.length : ℚ) * 100 else 0
  let qr : QuestionResult :=
    { question_id := question_id
    , question := question
    , golden_answer := ga
    , assistant_results := rs
    , total_assistants := assistant_ids.length
    , successful_assistants := succ
    , failed_assistants := fl
    , success_rate := rate
    , total_execution_time := (rs.map (·.execution_time)).sum }
  let tr := (match ga with
    | some _ => [Artifact.goldenSaved question_id]
    | none => []) ++ rs.map Artifact.resultSaved ++ [Artifact.roundSaved qr]
  (qr, tr)

/-- The question loop of `run_full_experiment`
(`for question_id, question in enumerate(questions, 1)`), with the running
1-based `question_id`. -/
def run_rounds (golden : GoldenGen) (client : ChatClient) (assistant_ids : List String) :
    List String → Int → List QuestionResult × List Artifact
  | [], _ => ([], [])
  | q :: rest, qid =>
    let step := process_question_round golden client q qid assistant_ids
    let next := run_rounds golden client assistant_ids rest (qid + 1)
    (step.1 :: next.1, step.2 ++ next.2)

/-- ExperimentExecutor.run_full_experiment: creates the experiment directory
and configuration file, runs every question round, aggregates the final
summary and saves it.  `start_stamp`/`end_stamp` are the two
`datetime.now().isoformat()` readings and `dir_name` the timestamp-based
directory path.  Returns the summary and the trace of durable writes. -/
def run_full_experiment (golden : GoldenGen) (client : ChatClient)
    (assistant_ids questions : List String) (start_stamp end_stamp dir_name : String) :
    ExperimentSummary × List Artifact :=
  let total_tests := assistant_ids.length * questions.length
  let rounds := run_rounds golden client assistant_ids questions 1
  let all_results := rounds.1.flatMap (·.assistant_results)
  let completed := all_results.countP (·.success)
  let fl := total_tests - completed
  let rate : ℚ := if total_tests > 0 then (completed : ℚ) / (total_tests : ℚ) * 100 else 0
  let s : ExperimentSummary :=
    { total_tests := total_tests
    , completed_tests := completed
    , failed_tests := fl
    , success_rate := rate
    , total_execution_time := (all_results.map (·.execution_time)).sum
    , start_time := start_stamp
    , end_time := some end_stamp
    , results := all_results
    , question_results := rounds.1
    , experiment_directory := some dir_name }
  (s, Artifact.dirCreated assistant_ids questions ::
      Artifact.configSaved assistant_ids questions total_tests ::
      rounds.2 ++ [Artifact.summarySaved s])

theorem round_results_aux_length (client : ChatClient) (q : String) (qid : Int) (c : Nat) :
    ∀ (l : List String) (i0 : Nat), (round_results_aux client q qid c l i0).length = l.length := by
  intro l
  induction l with
  | nil => intro i0; rfl
  | cons a rest ih => intro i0; simp [round_results_aux, ih]

theorem round_results_aux_getElem (client : ChatClient) (q : String) (qid : Int) (c : Nat) :
    ∀ (l : List String) (i0 k : Nat),
    (round_results_aux client q qid c l i0)[k]? =
      (l[k]?).map (mk_round_result client q qid c (i0 + k)) := by
  intro l
  induction l with
  | nil => intro i0 k; simp [round_results_aux]
  | cons a rest ih =>
    intro i0 k
    cases k with
    | zero => simp [round_results_aux]
    | succ k =>
      simp only [round_results_aux, List.getElem?_cons_succ]
      rw [ih (i0 + 1) k]
      have harith : i0 + 1 + k = i0 + (k + 1) := by omega
      rw [harith]

theorem round_results_aux_test_ids (client : ChatClient) (q : String) (c : Nat) (j : Nat) :
    ∀ (l : List String) (i0 : Nat),
    (round_results_aux client q ((j : Int) + 1) c l i0).map (·.test_id) =
      (List.range' i0 l.length).map (fun n => ((j * c + n : Nat) : Int)) := by
  intro l
  induction l with
  | nil => intro i0; rfl
  | cons a rest ih =>
    intro i0
    have hrange : List.range' i0 (rest.length + 1) = i0 :: List.range' (i0 + 1) rest.length :=
      List.range'_succ i0 rest.length 1
    simp only [round_results_aux, List.map_cons, List.length_cons, hrange, ih (i0 + 1)]
    congr 1
    show ((j : Int) + 1 - 1) * (c : Int) + (i0 : Int) = ((j * c + i0 : Nat) : Int)
    push_cast
    ring

theorem range'_map_addcast (d : Nat) :
    ∀ (n s : Nat), (List.range' s n).map (fun x => ((d + x : Nat) : Int)) =
      (List.range' (d + s) n).map Int.ofNat := by
  intro n
  induction n with
  | zero => intro s; rfl
  | succ n ih =>
    intro s
    rw [List.range'_succ, List.range'_succ]
    simp only [List.map_cons]
    rw [ih (s + 1)]
    have harith : d + s + 1 = d + (s + 1) := by omega
    rw [harith]
    rfl

theorem run_rounds_test_ids (golden : GoldenGen) (client : ChatClient)
    (assistant_ids : List String) :
    ∀ (qs : List String) (j : Nat),
    (((run_rounds golden client assistant_ids qs ((j : Int) + 1)).1.flatMap
        (·.assistant_results)).map (·.test_id)) =
      (List.range' (j * assistant_ids.length + 1) (qs.length * assistant_ids.length)).map
        Int.ofNat := by
  intro qs
  induction qs with
  | nil => intro j; simp [run_rounds]
  | cons q rest ih =>
    intro j
    have hstep : ((j : Int) + 1) + 1 = ((j + 1 : Nat) : Int) + 1 := by push_cast; ring
    simp only [run_rounds, List.flatMap_cons, List.map_append]
    have hhead : ((process_question_round golden client q ((j : Int) + 1)
        assistant_ids).1.assistant_results.map (·.test_id)) =
        (List.range' (j * assistant_ids.length + 1) assistant_ids.length).map Int.ofNat := by
      show ((round_results client q ((j : Int) + 1) assistant_ids).map (·.test_id)) = _
      rw [round_results, round_results_aux_test_ids]
      have h := range'_map_addcast (j * assistant_ids.length) assistant_ids.length 1
      simpa using h
    rw [hhead, hstep, ih (j + 1)]
    have happ := List.range'_append (j * assistant_ids.length + 1) assistant_ids.length
      (rest.length * assistant_ids.length) 1
    simp only [one_mul] at happ
    have h1 : j * assistant_ids.length + 1 + assistant_ids.length =
        (j + 1) * assistant_ids.length + 1 := by ring
    have h2 : rest.length * assistant_ids.length + assistant_ids.length =
        (rest.length + 1) * assistant_ids.length := by ring
    rw [h1] at happ
    rw [← List.map_append, happ, h2, List.length_cons]

theorem run_rounds_flat_length (golden : GoldenGen) (client : ChatClient)
    (assistant_ids : List String) :
    ∀ (qs : List String) (qid : Int),
    ((run_rounds golden client assistant_ids qs qid).1.flatMap
      (·.assistant_results)).length = qs.length * assistant_ids.length := by
  intro qs
  induction qs with
  | nil => intro qid; simp [run_rounds]
  | cons q rest ih =>
    intro qid
    simp only [run_rounds, List.flatMap_cons, List.length_append, ih (qid + 1)]
    have hh : (process_question_round golden client q qid assistant_ids).1.assistant_results.length
        = assistant_ids.length := by
      show (round_results client q qid assistant_ids).length = _
      rw [round_results, round_results_aux_length]
    rw [hh, List.length_cons]
    ring

/-- C1: in every run of `run_full_experiment` over `A > 0` assistants and
`Q > 0` questions, the `test_id` values across the flattened result list
are exactly `1, 2, …, A*Q` in that order: question-major, assistant-minor,
computed as `(question_index-1)*A + assistant_index` with 1-based indices,
with no gaps and no repeats. -/
theorem numbering_invariant (golden : GoldenGen) (client : ChatClient)
    (assistant_ids questions : List String) (s e d : String)
    (hA : 0 < assistant_ids.length) (hQ : 0 < questions.length) :
    ((run_full_experiment golden client assistant_ids questions s e d).1.results.map
        (·.test_id)) =
      (List.range' 1 (assistant_ids.length * questions.length)).map Int.ofNat := by
  have hres : (run_full_experiment golden client assistant_ids questions s e d).1.results =
      (run_rounds golden client assistant_ids questions 1).1.flatMap (·.assistant_results) := rfl
  have hone : (1 : Int) = ((0 : Nat) : Int) + 1 := by norm_num
  rw [hres, hone, run_rounds_test_ids]
  simp [Nat.mul_comm]

/-- Witness for C1 at two assistants and two questions: the four test ids
come out as `1, 2, 3, 4`. -/
theorem numbering_invariant_witness :
    (0 : Nat) < (["a1", "a2"] : List String).length ∧
    (0 : Nat) < (["q1", "q2"] : List String).length ∧
    ((run_full_experiment (fun _ => none)
        (fun _ _ => ⟨.error "down", 1, "ts"⟩) ["a1", "a2"] ["q1", "q2"] "s" "e" "d").1.results.map
        (·.test_id)) =
      (List.range' 1 ((["a1", "a2"] : List String).length * (["q1", "q2"] : List String).length)).map
        Int.ofNat :=
  ⟨by decide, by decide,
    numbering_invariant (fun _ => none) (fun _ _ => ⟨.error "down", 1, "ts"⟩)
      ["a1", "a2"] ["q1", "q2"] "s" "e" "d" (by decide) (by decide)⟩

/-- C2: in every question round, one `ExperimentResult` is produced per
assistant of the input list; for any assistant for which the external chat
client raises, the exception is caught per-assistant and that result has
`success = false`, `error` set to the exception message and no transcript,
while an assistant for which the client completes gets `success = true`.
The round processor and executor cannot raise: they are total functions of
the client outcomes. -/
theorem partial_failure_isolated (golden : GoldenGen) (client : ChatClient)
    (question : String) (question_id : Int) (assistant_ids : List String) :
    (process_question_round golden client question question_id
        assistant_ids).1.assistant_results.length = assistant_ids.length ∧
    (∀ (k : Nat) (aid e : String) (t : ℚ) (st : String), assistant_ids[k]? = some aid →
      client aid question = ⟨.error e, t, st⟩ →
      ∃ r : ExperimentResult, (process_question_round golden client question question_id
              assistant_ids).1.assistant_results[k]? = some r ∧
        r.assistant_id = aid ∧ r.success = false ∧ r.error = some e ∧
        r.message = none ∧ r.execution_time = t) ∧
    (∀ (k : Nat) (aid : String) (m : Message) (t : ℚ) (st : String), assistant_ids[k]? = some aid →
      client aid question = ⟨.ok m, t, st⟩ →
      ∃ r : ExperimentResult, (process_question_round golden client question question_id
              assistant_ids).1.assistant_results[k]? = some r ∧
        r.assistant_id = aid ∧ r.success = true ∧ r.error = none ∧
        r.message = some m) := by
  have hres : (process_question_round golden client question question_id
      assistant_ids).1.assistant_results =
      round_results client question question_id assistant_ids := rfl
  refine ⟨?_, ?_, ?_⟩
  · rw [hres, round_results, round_results_aux_length]
  · intro k aid e t st hk hc
    refine ⟨mk_round_result client question question_id assistant_ids.length (1 + k) aid,
      ?_, ?_, ?_, ?_, ?_, ?_⟩ <;>
      simp [hres, round_results, round_results_aux_getElem, hk,
        mk_round_result, run_single_experiment, hc]
  · intro k aid m t st hk hc
    refine ⟨mk_round_result client question question_id assistant_ids.length (1 + k) aid,
      ?_, ?_, ?_, ?_, ?_⟩ <;>
      simp [hres, round_results, round_results_aux_getElem, hk,
        mk_round_result, run_single_experiment, hc]

/-- Shared concrete transcript used by witnesses. -/
def msg0 : Message :=
  ⟨"m0", "chat0", none, none, .assistant, none, none, none, none, none, [], []⟩

/-- Shared concrete chat client used by witnesses: raises for assistant
`a2`, completes for every other assistant. -/
def client0 : ChatClient :=
  fun aid _ => if aid = "a2" then ⟨.error "boom", 1, "ts"⟩ else ⟨.ok msg0, 2, "ts"⟩

/-- Shared concrete golden-answer generator used by witnesses: always
fails (returns `None`). -/
def golden0 : GoldenGen := fun _ => none

/-- Witness for C2: with three assistants of which `a2` raises, the round
produces three results and the second is the failure record. -/
theorem partial_failure_isolated_witness :
    ((["a1", "a2", "a3"] : List String)[1]? = some "a2") ∧
    (client0 "a2" "q" = ⟨.error "boom", 1, "ts"⟩) ∧
    (process_question_round golden0 client0 "q" 1
        ["a1", "a2", "a3"]).1.assistant_results.length = 3 ∧
    (∃ r, (process_question_round golden0 client0 "q" 1
            ["a1", "a2", "a3"]).1.assistant_results[1]? = some r ∧
      r.assistant_id = "a2" ∧ r.success = false ∧ r.error = some "boom" ∧
      r.message = none ∧ r.execution_time = 1) := by
  have h := partial_failure_isolated golden0 client0 "q" 1 ["a1", "a2", "a3"]
  exact ⟨rfl, rfl, h.1, h.2.1 1 "a2" "boom" 1 "ts" rfl rfl⟩

/-- C3: every `QuestionResult` built by the round processor satisfies
`successful_assistants + failed_assistants = total_assistants =
|assistant_results|` and `success_rate = successful/total*100` with `0`
when `total_assistants = 0`; an empty assistant list yields
`total_assistants = 0`, `success_rate = 0` and an empty result list. -/
theorem aggregation_correct (golden : GoldenGen) (client : ChatClient)
    (question : String) (question_id : Int) (assistant_ids : List String) :
    (process_question_round golden client question question_id
        assistant_ids).1.successful_assistants +
      (process_question_round golden client question question_id
        assistant_ids).1.failed_assistants =
      (process_question_round golden client question question_id
        assistant_ids).1.total_assistants ∧
    (process_question_round golden client question question_id
        assistant_ids).1.total_assistants =
      (process_question_round golden client question question_id
        assistant_ids).1.assistant_results.length ∧
    (process_question_round golden client question question_id
        assistant_ids).1.success_rate =
      (if (process_question_round golden client question question_id
            assistant_ids).1.total_assistants = 0 then 0
       else ((process_question_round golden client question question_id
              assistant_ids).1.successful_assistants : ℚ) /
            ((process_question_round golden client question question_id
              assistant_ids).1.total_assistants : ℚ) * 100) ∧
    (assistant_ids = [] →
      (process_question_round golden client question question_id
          assistant_ids).1.total_assistants = 0 ∧
      (process_question_round golden client question question_id
          assistant_ids).1.success_rate = 0 ∧
      (process_question_round golden client question question_id
          assistant_ids).1.assistant_results = []) := by
  have hlen : (round_results client question question_id assistant_ids).length =
      assistant_ids.length := by
    rw [round_results, round_results_aux_length]
  have hsucc : (process_question_round golden client question question_id
      assistant_ids).1.successful_assistants =
      (round_results client question question_id assistant_ids).countP (·.success) := rfl
  have hfail : (process_question_round golden client question question_id
      assistant_ids).1.failed_assistants =
      (round_results client question question_id assistant_ids).length -
        (round_results client question question_id assistant_ids).countP (·.success) := rfl
  have htot : (process_question_round golden client question question_id
      assistant_ids).1.total_assistants = assistant_ids.length := rfl
  have hrate : (process_question_round golden client question question_id
      assistant_ids).1.success_rate =
      (if (round_results client question question_id assistant_ids) ≠ [] then
        ((round_results client question question_id assistant_ids).countP (·.success) : ℚ) /
          ((round_results client question question_id assistant_ids).length : ℚ) * 100
       else 0) := rfl
  have hres : (process_question_round golden client question question_id
      assistant_ids).1.assistant_results =
      round_results client question question_id assistant_ids := rfl
  refine ⟨?_, ?_, ?_, ?_⟩
  · rw [hsucc, hfail, htot, ← hlen]
    exact Nat.add_sub_cancel' (List.countP_le_length _)
  · rw [htot, hres, hlen]
  · rw [hrate, hsucc, htot]
    by_cases hnil : assistant_ids.length = 0
    · have he : round_results client question question_id assistant_ids = [] := by
        rw [← List.length_eq_zero, hlen, hnil]
      simp [he, hnil]
    · have hne : round_results client question question_id assistant_ids ≠ [] := by
        intro hcon
        rw [hcon] at hlen
        exact hnil hlen.symm
      simp only [hne, if_true, hnil, if_false, hlen]
      simp [hne, hnil]
  · intro hnl
    subst hnl
    exact ⟨rfl, rfl, rfl⟩

/-- Witness for C3 at an empty assistant list. -/
theorem aggregation_correct_witness :
    (([] : List String) = []) ∧
    ((process_question_round golden0 client0 "q" 1 []).1.total_assistants = 0 ∧
      (process_question_round golden0 client0 "q" 1 []).1.success_rate = 0 ∧
      (process_question_round golden0 client0 "q" 1 []).1.assistant_results = []) :=
  ⟨rfl, (aggregation_correct golden0 client0 "q" 1 []).2.2.2 rfl⟩

/-- C4: every summary built by `run_full_experiment` satisfies
`completed_tests + failed_tests = total_tests = |assistant_ids| ×
|questions|` and `total_execution_time` is the exact sum of
`execution_time` over the flattened result list (arithmetic is modelled
exactly, over the rationals). -/
theorem summary_correct (golden : GoldenGen) (client : ChatClient)
    (assistant_ids questions : List String) (s e d : String) :
    (run_full_experiment golden client assistant_ids questions s e d).1.completed_tests +
      (run_full_experiment golden client assistant_ids questions s e d).1.failed_tests =
      (run_full_experiment golden client assistant_ids questions s e d).1.total_tests ∧
    (run_full_experiment golden client assistant_ids questions s e d).1.total_tests =
      assistant_ids.length * questions.length ∧
    (run_full_experiment golden client assistant_ids questions s e d).1.total_execution_time =
      (((run_full_experiment golden client assistant_ids questions s e d).1.results).map
        (·.execution_time)).sum := by
  have hcomp : (run_full_experiment golden client assistant_ids questions s e d).1.completed_tests =
      ((run_rounds golden client assistant_ids questions 1).1.flatMap
        (·.assistant_results)).countP (·.success) := rfl
  have hfail : (run_full_experiment golden client assistant_ids questions s e d).1.failed_tests =
      assistant_ids.length * questions.length -
        ((run_rounds golden client assistant_ids questions 1).1.flatMap
          (·.assistant_results)).countP (·.success) := rfl
  refine ⟨?_, rfl, rfl⟩
  rw [hcomp, hfail]
  have hle : ((run_rounds golden client assistant_ids questions 1).1.flatMap
      (·.assistant_results)).countP (·.success) ≤
      assistant_ids.length * questions.length := by
    have h1 := List.countP_le_length (l := (run_rounds golden client assistant_ids
      questions 1).1.flatMap (·.assistant_results)) (p := (·.success))
    rw [run_rounds_flat_length, Nat.mul_comm] at h1
    omega
  exact Nat.add_sub_cancel' hle

/-- C5 counterexample: calling `run_full_experiment` with a non-empty
assistant list and an empty question list is not rejected: the experiment
directory is created and the configuration file saved first, and a summary
with `total_tests = 0` and `success_rate = 0` is produced and saved, so
durable artifacts exist and a zero-test run completes normally. -/
theorem empty_input_counterexample :
    (run_full_experiment golden0 client0 ["a1"] [] "s" "e" "d").2 =
      [Artifact.dirCreated ["a1"] [], Artifact.configSaved ["a1"] [] 0,
       Artifact.summarySaved
         (run_full_experiment golden0 client0 ["a1"] [] "s" "e" "d").1] ∧
    (run_full_experiment golden0 client0 ["a1"] [] "s" "e" "d").1.total_tests = 0 ∧
    (run_full_experiment golden0 client0 ["a1"] [] "s" "e" "d").1.success_rate = 0 :=
  ⟨rfl, rfl, rfl⟩

/-- C5 amended: `run_full_experiment` performs no non-emptiness validation:
for every input it first creates the experiment directory and saves the
configuration file, and when the assistant list or the question list is
empty it still runs to completion, producing and saving a summary with
`total_tests = 0` and `success_rate = 0` instead of rejecting the call. -/
theorem empty_input_not_rejected (golden : GoldenGen) (client : ChatClient)
    (assistant_ids questions : List String) (s e d : String)
    (h : assistant_ids = [] ∨ questions = []) :
    (∃ rest, (run_full_experiment golden client assistant_ids questions s e d).2 =
      Artifact.dirCreated assistant_ids questions ::
        Artifact.configSaved assistant_ids questions
          (assistant_ids.length * questions.length) :: rest) ∧
    (run_full_experiment golden client assistant_ids questions s e d).1.total_tests = 0 ∧
    (run_full_experiment golden client assistant_ids questions s e d).1.success_rate = 0 ∧
    Artifact.summarySaved (run_full_experiment golden client assistant_ids questions s e d).1 ∈
      (run_full_experiment golden client assistant_ids questions s e d).2 := by
  have htot : (run_full_experiment golden client assistant_ids questions s e d).1.total_tests
      = 0 := by
    show assistant_ids.length * questions.length = 0
    rcases h with h | h <;> simp [h]
  refine ⟨⟨_, rfl⟩, htot, ?_, ?_⟩
  · show (if assistant_ids.length * questions.length > 0 then _ else (0 : ℚ)) = 0
    have h0 : assistant_ids.length * questions.length = 0 := htot
    simp [h0]
  · show _ ∈ Artifact.dirCreated assistant_ids questions ::
      Artifact.configSaved assistant_ids questions (assistant_ids.length * questions.length) ::
      ((run_rounds golden client assistant_ids questions 1).2 ++
        [Artifact.summarySaved (run_full_experiment golden client assistant_ids questions s e d).1])
    simp

/-- Witness for the amended C5 at an empty question list. -/
theorem empty_input_not_rejected_witness :
    ((["a1"] : List String) = [] ∨ ([] : List String) = []) ∧
    ((∃ rest, (run_full_experiment golden0 client0 ["a1"] [] "s" "e" "d").2 =
      Artifact.dirCreated ["a1"] [] ::
        Artifact.configSaved ["a1"] [] ((["a1"] : List String).length * ([] : List String).length)
          :: rest) ∧
    (run_full_experiment golden0 client0 ["a1"] [] "s" "e" "d").1.total_tests = 0 ∧
    (run_full_experiment golden0 client0 ["a1"] [] "s" "e" "d").1.success_rate = 0 ∧
    Artifact.summarySaved (run_full_experiment golden0 client0 ["a1"] [] "s" "e" "d").1 ∈
      (run_full_experiment golden0 client0 ["a1"] [] "s" "e" "d").2) :=
  ⟨Or.inr rfl, empty_input_not_rejected golden0 client0 ["a1"] [] "s" "e" "d" (Or.inr rfl)⟩

theorem round_results_aux_excl (client : ChatClient) (q : String) (qid : Int) (c : Nat) :
    ∀ (l : List String) (i0 : Nat), ∀ r ∈ round_results_aux client q qid c l i0,
      (r.success = true ↔ r.error = none) ∧ (r.success = true ↔ r.message.isSome = true) := by
  intro l
  induction l with
  | nil => intro i0 r hr; simp [round_results_aux] at hr
  | cons a rest ih =>
    intro i0 r hr
    rw [round_results_aux, List.mem_cons] at hr
    rcases hr with hr | hr
    · subst hr
      cases hco : client a q with
      | mk resp t st =>
        cases resp with
        | ok m => simp [mk_round_result, run_single_experiment, hco]
        | error e => simp [mk_round_result, run_single_experiment, hco]
    · exact ih (i0 + 1) r hr

theorem run_rounds_excl (golden : GoldenGen) (client : ChatClient)
    (assistant_ids : List String) :
    ∀ (qs : List String) (qid : Int),
    ∀ r ∈ (run_rounds golden client assistant_ids qs qid).1.flatMap (·.assistant_results),
      (r.success = true ↔ r.error = none) ∧ (r.success = true ↔ r.message.isSome = true) := by
  intro qs
  induction qs with
  | nil => intro qid r hr; simp [run_rounds] at hr
  | cons q rest ih =>
    intro qid r hr
    rw [run_rounds, List.flatMap_cons, List.mem_append] at hr
    rcases hr with hr | hr
    · have hres : (process_question_round golden client q qid assistant_ids).1.assistant_results
          = round_results client q qid assistant_ids := rfl
      rw [hres, round_results] at hr
      exact round_results_aux_excl client q qid assistant_ids.length assistant_ids 1 r hr
    · exact ih (qid + 1) r hr

/-- C8: every `ExperimentResult` in the flattened result list of a full
experiment satisfies the exclusivity invariant: `success = true` iff
`error` is null iff a transcript (`message`) is present. -/
theorem success_error_exclusivity (golden : GoldenGen) (client : ChatClient)
    (assistant_ids questions : List String) (s e d : String) :
    ∀ r ∈ (run_full_experiment golden client assistant_ids questions s e d).1.results,
      (r.success = true ↔ r.error = none) ∧ (r.success = true ↔ r.message.isSome = true) := by
  intro r hr
  have hres : (run_full_experiment golden client assistant_ids questions s e d).1.results =
      (run_rounds golden client assistant_ids questions 1).1.flatMap (·.assistant_results) := rfl
  rw [hres] at hr
  exact run_rounds_excl golden client assistant_ids questions 1 r hr

/-- Shared concrete successful result used by the C8 witness: what
`client0` produces for assistant `a1` on question `q`. -/
def r0 : ExperimentResult := ⟨1, "a1", "q", true, none, 2, "ts", some msg0⟩

/-- Witness for C8 at a concrete one-test experiment. -/
theorem success_error_exclusivity_witness :
    r0 ∈ (run_full_experiment golden0 client0 ["a1"] ["q"] "s" "e" "d").1.results ∧
    ((r0.success = true ↔ r0.error = none) ∧ (r0.success = true ↔ r0.message.isSome = true)) := by
  have hmem : r0 ∈ (run_full_experiment golden0 client0 ["a1"] ["q"] "s" "e" "d").1.results := by
    have hres : (run_full_experiment golden0 client0 ["a1"] ["q"] "s" "e" "d").1.results = [r0] :=
      rfl
    rw [hres]
    exact List.mem_singleton_self r0
  exact ⟨hmem, success_error_exclusivity golden0 client0 ["a1"] ["q"] "s" "e" "d" r0 hmem⟩

/-- GoldenAnswer row of `eval_assistants/models.py`: the content-addressed
golden-answer cache entry, uniquely keyed by `question_hash`.  The
timestamp columns are omitted (never read by the runner logic). -/
structure GoldenAnswerRow where
  model_name : String
  question_hash : String
  question : String
  answer : String
  success : Bool
deriving DecidableEq

/-- GoldenAnswer._get_question_hash computes
`sha256(f"{question} - {model_name}")`; sha256 is deterministic, and the
digest is identified with the hashed string (assumed collision-free). -/
def get_question_hash (question model_name : String) : String :=
  question ++ " - " ++ model_name

/-- The external completion client used by `_generate_golden_answer`:
returns the generated text, or the message of the raised exception. -/
def GenClient := String → Except String String

/-- ExperimentRunner._generate_golden_answer: the try/except converts a
raised exception into the pair
`(f"Error generating golden answer: {e}", False)`. -/
def generate_golden_answer_db (gen : GenClient) (question : String) : String × Bool :=
  match gen question with
  | .ok a => (a, true)
  | .error e => ("Error generating golden answer: " ++ e, false)

/-- Lookup by unique hash: `GoldenAnswer.objects.get(question_hash=h)`
returning the row, or `DoesNotExist` as `none`. -/
def find_golden (rows : List GoldenAnswerRow) (h : String) : Option GoldenAnswerRow :=
  rows.find? (fun r => r.question_hash == h)

/-- The atomic `GoldenAnswer.objects.get_or_create(question_hash=h,
defaults=...)` of Django: returns `(row, db, created)`. -/
def django_get_or_create (rows : List GoldenAnswerRow) (h : String)
    (defaults : GoldenAnswerRow) : GoldenAnswerRow × List GoldenAnswerRow × Bool :=
  match find_golden rows h with
  | some g => (g, rows, false)
  | none => (defaults, defaults :: rows, true)

/-- ExperimentRunner.get_or_create_golden_answer: hash lookup, generation on
miss, then Django `get_or_create` to absorb the check-then-insert race. -/
def get_or_create_golden_answer (gen : GenClient) (rows : List GoldenAnswerRow)
    (question model_name : String) : GoldenAnswerRow × List GoldenAnswerRow :=
  let h := get_question_hash question model_name
  match find_golden rows h with
  | some g => (g, rows)
  | none =>
    let gres := generate_golden_answer_db gen question
    let defaults : GoldenAnswerRow :=
      ⟨model_name, h, question, gres.1, gres.2⟩
    let created := django_get_or_create rows h defaults
    (created.1, created.2.1)

/-- Message of `management/commands/utils/schema.py` (the database-backed
runner's transcript model; `debugInfo` is a plain dict there). -/
structure DMessage where
  id : String
  chatId : String
  text : Option String
  originalText : Option String
  role : Role
  debugInfo : Option Json
  completedAt : Option String
  createdAt : Option String
  updatedAt : Option String
  stoppedStreamingAt : Option String
  references : List ContentReference
  assessment : List EvaluationAssessmentMessage

/-- The external chat client of the database-backed runner: a validated
transcript, or the message of the raised exception. -/
def DChatClient := String → String → Except String DMessage

/-- The citation/markup text rewriting of `process_assistant_message`
(pure external string munging, modelled as a parameter). -/
def TextProc := String → List ContentReference → String

/-- Message.get_optimized_text of `utils/schema.py`: rewrites the text only
when both references and text are present, otherwise returns the text
unchanged. -/
def get_optimized_text (proc : TextProc) (m : DMessage) : Option String :=
  match m.text with
  | some t => if m.references ≠ [] then some (proc t m.references) else some t
  | none => none

/-- ExperimentRunner._query_assistant: on success the validated message with
`success=True`; on a raised exception a synthetic message whose `chatId` is
the assistant id and whose text carries the error, with `success=False`.
`uuid` and `now` stand for `uuid.uuid4()` and `timezone.now()`. -/
def query_assistant (chat : DChatClient) (uuid now : String)
    (assistant_id question : String) : DMessage × Bool :=
  match chat assistant_id question with
  | .ok m => (m, true)
  | .error e =>
    ({ id := uuid
     , chatId := assistant_id
     , text := some ("Error querying assistant: " ++ e)
     , originalText := some question
     , role := .assistant
     , debugInfo := some (.obj [])
     , completedAt := some now
     , createdAt := some now
     , updatedAt := some now
     , stoppedStreamingAt := some now
     , references := []
     , assessment := [] }, false)

/-- AssistantResponse row of `eval_assistants/models.py`, with
`unique_together = [experiment, assistant_id, chat_id]`.  The timestamp
columns are omitted (never read by the runner logic). -/
structure AssistantResponseRow where
  experiment_id : String
  chat_id : String
  question : String
  assistant_id : String
  answer : Option String
  processed_answer : Option String
  debug_info : Option Json
  hallucination_level : Option String
  hallucination_reason : Option String
  references : List ContentReference
  success : Bool

/-- Whether two rows collide on the `(experiment, assistant_id, chat_id)`
unique key. -/
def response_key_clash (r2 r : AssistantResponseRow) : Bool :=
  r2.experiment_id == r.experiment_id && r2.assistant_id == r.assistant_id &&
    r2.chat_id == r.chat_id

/-- AssistantResponse.objects.create: the row is inserted unless it violates
the `unique_together` constraint, in which case the database raises
(`IntegrityError`, modelled as `Except.error`). -/
def insert_response (rows : List AssistantResponseRow) (r : AssistantResponseRow) :
    Except String (List AssistantResponseRow) :=
  if rows.any (fun r2 => response_key_clash r2 r) then
    .error "UNIQUE constraint failed: experiment, assistant_id, chat_id"
  else .ok (r :: rows)

/-- ExperimentRunner.run_assistant_query: queries the assistant, builds the
`AssistantResponse` row (first assessment entry as the hallucination
verdict) and inserts it; a constraint violation propagates (the method has
no try/except). -/
def run_assistant_query (chat : DChatClient) (proc : TextProc)
    (uuid now exp_id : String) (rows : List AssistantResponseRow)
    (assistant_id question : String) :
    Except String (AssistantResponseRow × List AssistantResponseRow) :=
  let mq := query_assistant chat uuid now assistant_id question
  let r : AssistantResponseRow :=
    { experiment_id := exp_id
    , chat_id := mq.1.chatId
    , question := question
    , assistant_id := assistant_id
    , answer := mq.1.text
    , processed_answer := get_optimized_text proc mq.1
    , debug_info := mq.1.debugInfo
    , hallucination_level := (mq.1.assessment.head?).map (·.label)
    , hallucination_reason := (mq.1.assessment.head?).map (·.explanation)
    , references := mq.1.references
    , success := mq.2 }
  match insert_response rows r with
  | .error e => .error e
  | .ok rows2 => .ok (r, rows2)

/-- State of the inner assistant loop of `run_experiment`: the response
table, the two counters, and the error that aborted the loop, if any. -/
structure APhase where
  responses : List AssistantResponseRow
  completed_responses : Nat
  failed_responses : Nat
  err : Option String

/-- The inner loop of `ExperimentRunner.run_experiment` over the assistant
ids of one question; an exception escaping `run_assistant_query` aborts the
loop and is recorded in `err`. -/
def run_assistants_db (chat : DChatClient) (proc : TextProc)
    (uuid now exp_id question : String) :
    List String → List AssistantResponseRow → Nat → Nat → APhase
  | [], rows, c, f => ⟨rows, c, f, none⟩
  | aid :: rest, rows, c, f =>
    match run_assistant_query chat proc uuid now exp_id rows aid question with
    | .error e => ⟨rows, c, f, some e⟩
    | .ok rq =>
      run_assistants_db chat proc uuid now exp_id question rest rq.2
        (if rq.1.success then c + 1 else c) (if rq.1.success then f else f + 1)

/-- State of the outer question loop of `run_experiment`. -/
structure QPhase where
  goldens : List GoldenAnswerRow
  responses : List AssistantResponseRow
  completed_responses : Nat
  failed_responses : Nat
  err : Option String

/-- The outer loop of `ExperimentRunner.run_experiment` over the questions:
golden-answer phase, then the assistant loop; an error aborts the whole
loop. -/
def run_questions_db (chat : DChatClient) (gen : GenClient) (proc : TextProc)
    (uuid now gm exp_id : String) (assistant_ids : List String) :
    List String → List GoldenAnswerRow → List AssistantResponseRow → Nat → Nat → QPhase
  | [], g, rows, c, f => ⟨g, rows, c, f, none⟩
  | q :: rest, g, rows, c, f =>
    let gres := get_or_create_golden_answer gen g q gm
    let ap := run_assistants_db chat proc uuid now exp_id q assistant_ids rows c f
    match ap.err with
    | some e => ⟨gres.2, ap.responses, ap.completed_responses, ap.failed_responses, some e⟩
    | none =>
      run_questions_db chat gen proc uuid now gm exp_id assistant_ids rest gres.2
        ap.responses ap.completed_responses ap.failed_responses

/-- Status values of the `Experiment` model. -/
inductive ExpStatus where
  | created
  | running
  | completed
  | failed
  | cancelled
deriving DecidableEq

/-- Final outcome of `ExperimentRunner.run_experiment`: the experiment
status, the two tables, and either the stats pair
`(completed_responses, failed_responses)` or the re-raised exception. -/
structure RunOutcome where
  status : ExpStatus
  goldens : List GoldenAnswerRow
  responses : List AssistantResponseRow
  result : Except String (Nat × Nat)

/-- ExperimentRunner.run_experiment: runs the question loop in a try/except;
on success the experiment is marked `completed` and stats returned, and on
any exception it is marked `failed` and the exception re-raised. -/
def run_experiment_db (chat : DChatClient) (gen : GenClient) (proc : TextProc)
    (uuid now gm exp_id : String) (assistant_ids questions : List String)
    (goldens : List GoldenAnswerRow) (rows : List AssistantResponseRow) : RunOutcome :=
  let qp := run_questions_db chat gen proc uuid now gm exp_id assistant_ids questions
    goldens rows 0 0
  match qp.err with
  | none => ⟨.completed, qp.goldens, qp.responses,
      .ok (qp.completed_responses, qp.failed_responses)⟩
  | some e => ⟨.failed, qp.goldens, qp.responses, .error e⟩

theorem run_questions_db_gen_irrelevant (chat : DChatClient) (gen gen2 : GenClient)
    (proc : TextProc) (uuid now gm exp_id : String) (assistant_ids : List String) :
    ∀ (qs : List String) (g g2 : List GoldenAnswerRow)
      (rows : List AssistantResponseRow) (c f : Nat),
    ((run_questions_db chat gen proc uuid now gm exp_id assistant_ids qs g rows c
        f).responses =
      (run_questions_db chat gen2 proc uuid now gm exp_id assistant_ids qs g2 rows c
        f).responses) ∧
    ((run_questions_db chat gen proc uuid now gm exp_id assistant_ids qs g rows c
        f).completed_responses =
      (run_questions_db chat gen2 proc uuid now gm exp_id assistant_ids qs g2 rows c
        f).completed_responses) ∧
    ((run_questions_db chat gen proc uuid now gm exp_id assistant_ids qs g rows c
        f).failed_responses =
      (run_questions_db chat gen2 proc uuid now gm exp_id assistant_ids qs g2 rows c
        f).failed_responses) ∧
    ((run_questions_db chat gen proc uuid now gm exp_id assistant_ids qs g rows c
        f).err =
      (run_questions_db chat gen2 proc uuid now gm exp_id assistant_ids qs g2 rows c
        f).err) := by
  intro qs
  induction qs with
  | nil => intro g g2 rows c f; exact ⟨rfl, rfl, rfl, rfl⟩
  | cons q rest ih =>
    intro g g2 rows c f
    simp only [run_questions_db]
    cases hap : (run_assistants_db chat proc uuid now exp_id q assistant_ids rows c f).err with
    | some e => simp [hap]
    | none =>
      simp only [hap]
      exact ih _ _ _ _ _

/-- C6: when golden-answer generation raises, the database-backed
golden-answer component stores a `GoldenAnswer` record with
`success = false` and `answer` set to an error description, returns it
instead of propagating (the component is a total function of the client
outcome), keeps the record so that a later call returns it without calling
the generator again, and the question round proceeds to the assistant
phase unchanged (the assistant-phase results of the question loop are
independent of the golden outcome). -/
theorem golden_failure_nonfatal (gen : GenClient) (rows : List GoldenAnswerRow)
    (question model_name e : String)
    (hgen : gen question = .error e)
    (hmiss : find_golden rows (get_question_hash question model_name) = none) :
    ((get_or_create_golden_answer gen rows question model_name).1.success = false) ∧
    ((get_or_create_golden_answer gen rows question model_name).1.answer =
      "Error generating golden answer: " ++ e) ∧
    ((get_or_create_golden_answer gen rows question model_name).1 ∈
      (get_or_create_golden_answer gen rows question model_name).2) ∧
    (∀ gen2 : GenClient,
      get_or_create_golden_answer gen2
          (get_or_create_golden_answer gen rows question model_name).2 question model_name =
        get_or_create_golden_answer gen rows question model_name) ∧
    (∀ (chat : DChatClient) (proc : TextProc) (uuid now gm exp_id : String)
        (assistant_ids qs : List String) (g2 : List GoldenAnswerRow)
        (rs : List AssistantResponseRow) (c f : Nat) (gen2 : GenClient),
      (run_questions_db chat gen proc uuid now gm exp_id assistant_ids qs rows rs c
          f).responses =
        (run_questions_db chat gen2 proc uuid now gm exp_id assistant_ids qs g2 rs c
          f).responses ∧
      (run_questions_db chat gen proc uuid now gm exp_id assistant_ids qs rows rs c
          f).err =
        (run_questions_db chat gen2 proc uuid now gm exp_id assistant_ids qs g2 rs c
          f).err) := by
  have hval : get_or_create_golden_answer gen rows question model_name =
      (⟨model_name, get_question_hash question model_name, question,
        "Error generating golden answer: " ++ e, false⟩,
       (⟨model_name, get_question_hash question model_name, question,
        "Error generating golden answer: " ++ e, false⟩ : GoldenAnswerRow) :: rows) := by
    simp [get_or_create_golden_answer, generate_golden_answer_db, django_get_or_create,
      hgen, hmiss]
  refine ⟨?_, ?_, ?_, ?_, ?_⟩
  · rw [hval]
  · rw [hval]
  · rw [hval]
    exact List.mem_cons_self _ _
  · intro gen2
    rw [hval]
    have hfind : find_golden
        ((⟨model_name, get_question_hash question model_name, question,
          "Error generating golden answer: " ++ e, false⟩ : GoldenAnswerRow) :: rows)
        (get_question_hash question model_name) = some
        ⟨model_name, get_question_hash question model_name, question,
          "Error generating golden answer: " ++ e, false⟩ := by
      rw [find_golden, List.find?_cons_of_pos]
      simp
    simp [get_or_create_golden_answer, hfind]
  · intro chat proc uuid now gm exp_id assistant_ids qs g2 rs c f gen2
    have h := run_questions_db_gen_irrelevant chat gen gen2 proc uuid now gm exp_id
      assistant_ids qs rows g2 rs c f
    exact ⟨h.1, h.2.2.2⟩

/-- Witness for C6: a generator that always raises, against an empty cache. -/
theorem golden_failure_nonfatal_witness :
    ((fun _ => .error "api down" : GenClient) "q" = .error "api down") ∧
    (find_golden [] (get_question_hash "q" "m") = none) ∧
    ((get_or_create_golden_answer (fun _ => .error "api down") [] "q" "m").1.success
      = false) ∧
    ((get_or_create_golden_answer (fun _ => .error "api down") [] "q" "m").1.answer =
      "Error generating golden answer: " ++ "api down") := by
  have h := golden_failure_nonfatal (fun _ => .error "api down") [] "q" "m" "api down"
    rfl rfl
  exact ⟨rfl, rfl, h.1, h.2.1⟩

/-- C7: for a `(question, model)` pair not yet cached (with a well-formed
cache: every row's hash is the hash of its own pair, the invariant
`GoldenAnswer.save` maintains), two calls of `get_or_create_golden_answer`
with identical arguments persist exactly one row for that pair and the
second call returns the same `question_hash` and leaves the table
unchanged; under the interleaved schedule in which both callers miss on
the initial table and then run the atomic Django `get_or_create`
back-to-back, the second caller creates nothing, returns the first
caller's row, and exactly one row for the pair is persisted. -/
theorem golden_get_or_create_idempotent (gen gen2 genA genB : GenClient)
    (rows : List GoldenAnswerRow) (question model_name : String)
    (hwf : ∀ r ∈ rows, r.question_hash = get_question_hash r.question r.model_name)
    (hmiss : find_golden rows (get_question_hash question model_name) = none) :
    (((get_or_create_golden_answer gen2
        (get_or_create_golden_answer gen rows question model_name).2 question
        model_name).2.filter
        (fun r => r.question == question && r.model_name == model_name)).length = 1) ∧
    ((get_or_create_golden_answer gen2
        (get_or_create_golden_answer gen rows question model_name).2 question
        model_name).1.question_hash =
      (get_or_create_golden_answer gen rows question model_name).1.question_hash) ∧
    ((get_or_create_golden_answer gen2
        (get_or_create_golden_answer gen rows question model_name).2 question
        model_name).2 =
      (get_or_create_golden_answer gen rows question model_name).2) ∧
    ((django_get_or_create
        (django_get_or_create rows (get_question_hash question model_name)
          ⟨model_name, get_question_hash question model_name, question,
            (generate_golden_answer_db genB question).1,
            (generate_golden_answer_db genB question).2⟩).2.1
        (get_question_hash question model_name)
        ⟨model_name, get_question_hash question model_name, question,
          (generate_golden_answer_db genA question).1,
          (generate_golden_answer_db genA question).2⟩).2.2 = false) ∧
    ((django_get_or_create
        (django_get_or_create rows (get_question_hash question model_name)
          ⟨model_name, get_question_hash question model_name, question,
            (generate_golden_answer_db genB question).1,
            (generate_golden_answer_db genB question).2⟩).2.1
        (get_question_hash question model_name)
        ⟨model_name, get_question_hash question model_name, question,
          (generate_golden_answer_db genA question).1,
          (generate_golden_answer_db genA question).2⟩).1 =
      (django_get_or_create rows (get_question_hash question model_name)
        ⟨model_name, get_question_hash question model_name, question,
          (generate_golden_answer_db genB question).1,
          (generate_golden_answer_db genB question).2⟩).1) ∧
    (((django_get_or_create
        (django_get_or_create rows (get_question_hash question model_name)
          ⟨model_name, get_question_hash question model_name, question,
            (generate_golden_answer_db genB question).1,
            (generate_golden_answer_db genB question).2⟩).2.1
        (get_question_hash question model_name)
        ⟨model_name, get_question_hash question model_name, question,
          (generate_golden_answer_db genA question).1,
          (generate_golden_answer_db genA question).2⟩).2.1.filter
        (fun r => r.question == question && r.model_name == model_name)).length = 1) := by
  have hfilter0 : rows.filter
      (fun r => r.question == question && r.model_name == model_name) = [] := by
    rw [List.filter_eq_nil_iff]
    intro r hr hcontra
    have hpair : r.question = question ∧ r.model_name = model_name := by
      simpa using hcontra
    have hnone := List.find?_eq_none.mp hmiss r hr
    apply hnone
    have hhash : r.question_hash = get_question_hash question model_name := by
      rw [hwf r hr, hpair.1, hpair.2]
    simp [hhash]
  have hval1 : get_or_create_golden_answer gen rows question model_name =
      (⟨model_name, get_question_hash question model_name, question,
        (generate_golden_answer_db gen question).1,
        (generate_golden_answer_db gen question).2⟩,
       (⟨model_name, get_question_hash question model_name, question,
        (generate_golden_answer_db gen question).1,
        (generate_golden_answer_db gen question).2⟩ : GoldenAnswerRow) :: rows) := by
    simp [get_or_create_golden_answer, django_get_or_create, hmiss]
  have hfind1 : find_golden
      ((⟨model_name, get_question_hash question model_name, question,
        (generate_golden_answer_db gen question).1,
        (generate_golden_answer_db gen question).2⟩ : GoldenAnswerRow) :: rows)
      (get_question_hash question model_name) = some
      ⟨model_name, get_question_hash question model_name, question,
        (generate_golden_answer_db gen question).1,
        (generate_golden_answer_db gen question).2⟩ := by
    rw [find_golden, List.find?_cons_of_pos]
    simp
  have hval2 : get_or_create_golden_answer gen2
      (get_or_create_golden_answer gen rows question model_name).2 question model_name =
      get_or_create_golden_answer gen rows question model_name := by
    rw [hval1]
    simp [get_or_create_golden_answer, hfind1]
  have hfindB : find_golden
      ((⟨model_name, get_question_hash question model_name, question,
        (generate_golden_answer_db genB question).1,
        (generate_golden_answer_db genB question).2⟩ : GoldenAnswerRow) :: rows)
      (get_question_hash question model_name) = some
      ⟨model_name, get_question_hash question model_name, question,
        (generate_golden_answer_db genB question).1,
        (generate_golden_answer_db genB question).2⟩ := by
    rw [find_golden, List.find?_cons_of_pos]
    simp
  have hdjB : django_get_or_create rows (get_question_hash question model_name)
      ⟨model_name, get_question_hash question model_name, question,
        (generate_golden_answer_db genB question).1,
        (generate_golden_answer_db genB question).2⟩ =
      (⟨model_name, get_question_hash question model_name, question,
        (generate_golden_answer_db genB question).1,
        (generate_golden_answer_db genB question).2⟩,
       (⟨model_name, get_question_hash question model_name, question,
        (generate_golden_answer_db genB question).1,
        (generate_golden_answer_db genB question).2⟩ : GoldenAnswerRow) :: rows, true) := by
    simp [django_get_or_create, hmiss]
  refine ⟨?_, ?_, ?_, ?_, ?_, ?_⟩
  · rw [hval2, hval1]
    simp [List.filter_cons, hfilter0]
  · rw [hval2]
  · rw [hval2]
  · rw [hdjB]
    simp [django_get_or_create, hfindB]
  · rw [hdjB]
    simp [django_get_or_create, hfindB]
  · rw [hdjB]
    simp only [django_get_or_create, hfindB]
    simp [List.filter_cons, hfilter0]

/-- Witness for C7 on an empty cache with a succeeding generator. -/
theorem golden_get_or_create_idempotent_witness :
    (∀ r ∈ ([] : List GoldenAnswerRow),
      r.question_hash = get_question_hash r.question r.model_name) ∧
    (find_golden [] (get_question_hash "q" "m") = none) ∧
    (((get_or_create_golden_answer (fun _ => .ok "42")
        (get_or_create_golden_answer (fun _ => .ok "42") [] "q" "m").2 "q"
        "m").2.filter (fun r => r.question == "q" && r.model_name == "m")).length = 1) ∧
    ((get_or_create_golden_answer (fun _ => .ok "42")
        (get_or_create_golden_answer (fun _ => .ok "42") [] "q" "m").2 "q"
        "m").1.question_hash =
      (get_or_create_golden_answer (fun _ => .ok "42") [] "q" "m").1.question_hash) := by
  have h := golden_get_or_create_idempotent (fun _ => .ok "42") (fun _ => .ok "42")
    (fun _ => .ok "42") (fun _ => .ok "42") [] "q" "m" (by simp) rfl
  exact ⟨by simp, rfl, h.1, h.2.1⟩

/-- The `AssistantResponse` row stored by `run_assistant_query` when the
chat client raises `e` for assistant `a` on question `q`: built from the
synthetic transcript of `_query_assistant`, so `chat_id = a`. -/
def failed_row (exp_id a q e : String) : AssistantResponseRow :=
  { experiment_id := exp_id
  , chat_id := a
  , question := q
  , assistant_id := a
  , answer := some ("Error querying assistant: " ++ e)
  , processed_answer := some ("Error querying assistant: " ++ e)
  , debug_info := some (.obj [])
  , hallucination_level := none
  , hallucination_reason := none
  , references := []
  , success := false }

/-- C10: in the database-backed runner every failed assistant query stores a
synthetic transcript whose `chatId` equals the assistant id; hence when the
same assistant fails on two different questions within one experiment, the
second `AssistantResponse` insert violates the
`(experiment, assistant_id, chat_id)` uniqueness constraint, the exception
escapes `run_assistant_query`, only the first failure row is persisted, and
the whole experiment is marked `failed` with the error re-raised instead of
continuing with the remaining tests. -/
theorem duplicate_failed_chat_id_aborts (chat : DChatClient) (gen : GenClient)
    (proc : TextProc) (uuid now gm exp_id a q1 q2 e1 e2 : String)
    (goldens : List GoldenAnswerRow) (rows : List AssistantResponseRow)
    (hq : q1 ≠ q2)
    (h1 : chat a q1 = .error e1)
    (h2 : chat a q2 = .error e2)
    (hclean : ∀ r ∈ rows,
      ¬(r.experiment_id = exp_id ∧ r.assistant_id = a ∧ r.chat_id = a)) :
    ((query_assistant chat uuid now a q1).1.chatId = a) ∧
    ((query_assistant chat uuid now a q1).2 = false) ∧
    ((run_experiment_db chat gen proc uuid now gm exp_id [a] [q1, q2] goldens
        rows).status = .failed) ∧
    ((run_experiment_db chat gen proc uuid now gm exp_id [a] [q1, q2] goldens
        rows).result =
      .error "UNIQUE constraint failed: experiment, assistant_id, chat_id") ∧
    (∃ r : AssistantResponseRow,
      (run_experiment_db chat gen proc uuid now gm exp_id [a] [q1, q2] goldens
        rows).responses = r :: rows ∧
      r.chat_id = a ∧ r.assistant_id = a ∧ r.success = false) := by
  have hany1 : rows.any (fun r2 => response_key_clash r2 (failed_row exp_id a q1 e1))
      = false := by
    rw [List.any_eq_false]
    intro r2 hr2 hcon
    have hc : r2.experiment_id = exp_id ∧ r2.assistant_id = a ∧ r2.chat_id = a := by
      have hcon2 := hcon
      simp [response_key_clash, failed_row] at hcon2
      exact ⟨hcon2.1.1, hcon2.1.2, hcon2.2⟩
    exact hclean r2 hr2 hc
  have hrow1 : run_assistant_query chat proc uuid now exp_id rows a q1 =
      .ok (failed_row exp_id a q1 e1, failed_row exp_id a q1 e1 :: rows) := by
    have hany1u := hany1
    unfold failed_row at hany1u
    simp only [run_assistant_query, query_assistant, h1, get_optimized_text, ne_eq,
      not_true, List.head?_nil, Option.map_none', insert_response, reduceIte]
    simp only [hany1u, Bool.false_eq_true, reduceIte]
    rfl
  have hrow2 : run_assistant_query chat proc uuid now exp_id
      (failed_row exp_id a q1 e1 :: rows) a q2 =
      .error "UNIQUE constraint failed: experiment, assistant_id, chat_id" := by
    simp [run_assistant_query, query_assistant, h2, get_optimized_text,
      insert_response, response_key_clash, failed_row]
  have hap1 : run_assistants_db chat proc uuid now exp_id q1 [a] rows 0 0 =
      ⟨failed_row exp_id a q1 e1 :: rows, 0, 1, none⟩ := by
    simp [run_assistants_db, hrow1, failed_row]
  have hap2 : run_assistants_db chat proc uuid now exp_id q2 [a]
      (failed_row exp_id a q1 e1 :: rows) 0 1 =
      ⟨failed_row exp_id a q1 e1 :: rows, 0, 1,
        some "UNIQUE constraint failed: experiment, assistant_id, chat_id"⟩ := by
    simp [run_assistants_db, hrow2]
  refine ⟨by simp [query_assistant, h1], by simp [query_assistant, h1], ?_, ?_, ?_⟩
  · simp [run_experiment_db, run_questions_db, hap1, hap2]
  · simp [run_experiment_db, run_questions_db, hap1, hap2]
  · refine ⟨failed_row exp_id a q1 e1, ?_, rfl, rfl, rfl⟩
    simp [run_experiment_db, run_questions_db, hap1, hap2]

/-- Witness for C10: one assistant failing on both of two distinct
questions against empty tables. -/
theorem duplicate_failed_chat_id_aborts_witness :
    ("q1" ≠ "q2") ∧
    ((fun _ _ => .error "conn reset" : DChatClient) "asst" "q1" = .error "conn reset") ∧
    ((fun _ _ => .error "conn reset" : DChatClient) "asst" "q2" = .error "conn reset") ∧
    ((run_experiment_db (fun _ _ => .error "conn reset") (fun _ => .ok "g")
        (fun t _ => t) "u" "n" "m" "exp" ["asst"] ["q1", "q2"] [] []).status =
      .failed) ∧
    ((run_experiment_db (fun _ _ => .error "conn reset") (fun _ => .ok "g")
        (fun t _ => t) "u" "n" "m" "exp" ["asst"] ["q1", "q2"] [] []).result =
      .error "UNIQUE constraint failed: experiment, assistant_id, chat_id") := by
  have h := duplicate_failed_chat_id_aborts (fun _ _ => .error "conn reset")
    (fun _ => .ok "g") (fun t _ => t) "u" "n" "m" "exp" "asst" "q1" "q2"
    "conn reset" "conn reset" [] [] (by decide) rfl rfl (by simp)
  exact ⟨by decide, rfl, rfl, h.2.2.1, h.2.2.2.1⟩

/-- model_dump of a `ContentReference`. -/
def ContentReference.toJson (x : ContentReference) : Json :=
  .obj [("name", .str x.name), ("url", .str x.url),
        ("sequence_number", .int x.sequence_number)]

/-- model_validate of a `ContentReference`. -/
def ContentReference.fromJson (j : Json) : Option ContentReference :=
  ((j.getField "name").bind Json.asStr).bind fun nm =>
  ((j.getField "url").bind Json.asStr).bind fun u =>
  ((j.getField "sequence_number").bind Json.asInt).bind fun sn =>
  some ⟨nm, u, sn⟩

theorem contentReference_roundtrip :
    ∀ x : ContentReference, ContentReference.fromJson (ContentReference.toJson x) = some x :=
  fun _ => rfl

/-- model_dump of an `EvaluationAssessmentMessage`. -/
def EvaluationAssessmentMessage.toJson (x : EvaluationAssessmentMessage) : Json :=
  .obj [("label", .str x.label), ("explanation", .str x.explanation)]

/-- model_validate of an `EvaluationAssessmentMessage`. -/
def EvaluationAssessmentMessage.fromJson (j : Json) : Option EvaluationAssessmentMessage :=
  ((j.getField "label").bind Json.asStr).bind fun lb =>
  ((j.getField "explanation").bind Json.asStr).bind fun ex =>
  some ⟨lb, ex⟩

theorem evaluationAssessment_roundtrip :
    ∀ x : EvaluationAssessmentMessage,
      EvaluationAssessmentMessage.fromJson (EvaluationAssessmentMessage.toJson x) = some x :=
  fun _ => rfl

/-- model_dump of a `TimeInfo`. -/
def TimeInfo.toJson (x : TimeInfo) : Json :=
  .obj [("clean_time", .num x.clean_time), ("crawl_time", .num x.crawl_time),
        ("total_time", .num x.total_time), ("search_time", .num x.search_time)]

/-- model_validate of a `TimeInfo`. -/
def TimeInfo.fromJson (j : Json) : Option TimeInfo :=
  ((j.getField "clean_time").bind Json.asNum).bind fun a =>
  ((j.getField "crawl_time").bind Json.asNum).bind fun b =>
  ((j.getField "total_time").bind Json.asNum).bind fun c =>
  ((j.getField "search_time").bind Json.asNum).bind fun d =>
  some ⟨a, b, c, d⟩

theorem timeInfo_roundtrip :
    ∀ x : TimeInfo, TimeInfo.fromJson (TimeInfo.toJson x) = some x :=
  fun _ => rfl

/-- model_dump of a `SearchResult`. -/
def SearchResult.toJson (x : SearchResult) : Json :=
  .obj [("title", .str x.title), ("url", .str x.url), ("content", .str x.content)]

/-- model_validate of a `SearchResult`. -/
def SearchResult.fromJson (j : Json) : Option SearchResult :=
  ((j.getField "title").bind Json.asStr).bind fun t =>
  ((j.getField "url").bind Json.asStr).bind fun u =>
  ((j.getField "content").bind Json.asStr).bind fun c =>
  some ⟨t, u, c⟩

theorem searchResult_roundtrip :
    ∀ x : SearchResult, SearchResult.fromJson (SearchResult.toJson x) = some x :=
  fun _ => rfl

/-- model_dump of a `DebugInfoTool`. -/
def DebugInfoTool.toJson (x : DebugInfoTool) : Json :=
  .obj [("time_info", TimeInfo.toJson x.time_info),
        ("search_query", .str x.search_query),
        ("date_restrict", .str x.date_restrict),
        ("refined_query", .str x.refined_query),
        ("search_results", .arr (x.search_results.map SearchResult.toJson)),
        ("num_chunks_in_final_prompts", .int x.num_chunks_in_final_prompts)]

/-- model_validate of a `DebugInfoTool`: the `convert_key_format` validator
accepts the count under either the underscore key or the legacy
space-separated key. -/
def DebugInfoTool.fromJson (j : Json) : Option DebugInfoTool :=
  ((j.getField "time_info").bind TimeInfo.fromJson).bind fun ti =>
  ((j.getField "search_query").bind Json.asStr).bind fun sq =>
  ((j.getField "date_restrict").bind Json.asStr).bind fun dr =>
  ((j.getField "refined_query").bind Json.asStr).bind fun rq =>
  ((j.getField "search_results").bind (Json.decodeList SearchResult.fromJson)).bind fun srs =>
  ((match j.getField "num_chunks_in_final_prompts" with
    | some v => some v
    | none => j.getField "num chunks in final prompts").bind Json.asInt).bind fun nck =>
  some ⟨ti, sq, dr, rq, srs, nck⟩

theorem debugInfoTool_roundtrip :
    ∀ x : DebugInfoTool, DebugInfoTool.fromJson (DebugInfoTool.toJson x) = some x := by
  intro x
  obtain ⟨ti, sq, dr, rq, srs, nck⟩ := x
  simp [DebugInfoTool.toJson, DebugInfoTool.fromJson, Json.getField, Json.lookupField,
    Json.asStr, Json.asInt, timeInfo_roundtrip,
    Json.decodeList_map SearchResult.toJson SearchResult.fromJson searchResult_roundtrip]

/-- model_dump of a `DebugInfo`. -/
def DebugInfo.toJson (x : DebugInfo) : Json :=
  .obj [("tools", Json.encodeOpt (fun l => .arr (l.map DebugInfoTool.toJson)) x.tools)]

/-- model_validate of a `DebugInfo`. -/
def DebugInfo.fromJson (j : Json) : Option DebugInfo :=
  ((j.getField "tools").bind
    (Json.decodeOpt (Json.decodeList DebugInfoTool.fromJson))).bind fun ts =>
  some ⟨ts⟩

theorem optTools_roundtrip :
    ∀ o : Option (List DebugInfoTool),
      Json.decodeOpt (Json.decodeList DebugInfoTool.fromJson)
        (Json.encodeOpt (fun l => .arr (l.map DebugInfoTool.toJson)) o) = some o :=
  Json.decodeOpt_encodeOpt _ _ (fun _ => rfl)
    (fun l => Json.decodeList_map DebugInfoTool.toJson DebugInfoTool.fromJson
      debugInfoTool_roundtrip l)

theorem debugInfo_roundtrip :
    ∀ x : DebugInfo, DebugInfo.fromJson (DebugInfo.toJson x) = some x := by
  intro x
  obtain ⟨ts⟩ := x
  simp [DebugInfo.toJson, DebugInfo.fromJson, Json.getField, Json.lookupField,
    optTools_roundtrip]

theorem optStr_roundtrip :
    ∀ o : Option String,
      Json.decodeOpt Json.asStr (Json.encodeOpt Json.str o) = some o :=
  Json.decodeOpt_encodeOpt _ _ (fun _ => rfl) (fun _ => rfl)

/-- model_dump of a `Message`. -/
def Message.toJson (x : Message) : Json :=
  .obj [("id", .str x.id), ("chatId", .str x.chatId),
        ("text", Json.encodeOpt Json.str x.text),
        ("originalText", Json.encodeOpt Json.str x.originalText),
        ("role", .str (Role.toStr x.role)),
        ("debugInfo", Json.encodeOpt DebugInfo.toJson x.debugInfo),
        ("completedAt", Json.encodeOpt Json.str x.completedAt),
        ("createdAt", Json.encodeOpt Json.str x.createdAt),
        ("updatedAt", Json.encodeOpt Json.str x.updatedAt),
        ("stoppedStreamingAt", Json.encodeOpt Json.str x.stoppedStreamingAt),
        ("references", .arr (x.references.map ContentReference.toJson)),
        ("assessment", .arr (x.assessment.map EvaluationAssessmentMessage.toJson))]

/-- model_validate of a `Message` (the role field goes through the
lowercasing `validate_role` validator). -/
def Message.fromJson (j : Json) : Option Message :=
  ((j.getField "id").bind Json.asStr).bind fun i =>
  ((j.getField "chatId").bind Json.asStr).bind fun ch =>
  ((j.getField "text").bind (Json.decodeOpt Json.asStr)).bind fun tx =>
  ((j.getField "originalText").bind (Json.decodeOpt Json.asStr)).bind fun ot =>
  (((j.getField "role").bind Json.asStr).bind Role.ofStr).bind fun rl =>
  ((j.getField "debugInfo").bind (Json.decodeOpt DebugInfo.fromJson)).bind fun dbg =>
  ((j.getField "completedAt").bind (Json.decodeOpt Json.asStr)).bind fun ca =>
  ((j.getField "createdAt").bind (Json.decodeOpt Json.asStr)).bind fun cra =>
  ((j.getField "updatedAt").bind (Json.decodeOpt Json.asStr)).bind fun ua =>
  ((j.getField "stoppedStreamingAt").bind (Json.decodeOpt Json.asStr)).bind fun ssa =>
  ((j.getField "references").bind
    (Json.decodeList ContentReference.fromJson)).bind fun refs =>
  ((j.getField "assessment").bind
    (Json.decodeList EvaluationAssessmentMessage.fromJson)).bind fun ev =>
  some ⟨i, ch, tx, ot, rl, dbg, ca, cra, ua, ssa, refs, ev⟩

theorem optDebugInfo_roundtrip :
    ∀ o : Option DebugInfo,
      Json.decodeOpt DebugInfo.fromJson (Json.encodeOpt DebugInfo.toJson o) = some o :=
  Json.decodeOpt_encodeOpt _ _ (fun _ => rfl) debugInfo_roundtrip

theorem message_roundtrip :
    ∀ x : Message, Message.fromJson (Message.toJson x) = some x := by
  intro x
  obtain ⟨i, ch, tx, ot, rl, dbg, ca, cra, ua, ssa, refs, ev⟩ := x
  simp [Message.toJson, Message.fromJson, Json.getField, Json.lookupField, Json.asStr,
    optStr_roundtrip, optDebugInfo_roundtrip, Role.ofStr_toStr,
    Json.decodeList_map ContentReference.toJson ContentReference.fromJson
      contentReference_roundtrip,
    Json.decodeList_map EvaluationAssessmentMessage.toJson
      EvaluationAssessmentMessage.fromJson evaluationAssessment_roundtrip]

theorem Json.asNat_natCast (n : Nat) : Json.asNat (.int (n : Int)) = some n := by
  simp [Json.asNat, Int.natCast_nonneg, Int.toNat_natCast]

/-- model_dump of an `ExperimentResult`. -/
def ExperimentResult.toJson (x : ExperimentResult) : Json :=
  .obj [("test_id", .int x.test_id),
        ("assistant_id", .str x.assistant_id),
        ("question", .str x.question),
        ("success", .bool x.success),
        ("error", Json.encodeOpt Json.str x.error),
        ("execution_time", .num x.execution_time),
        ("timestamp", .str x.timestamp),
        ("message", Json.encodeOpt Message.toJson x.message)]

/-- model_validate of an `ExperimentResult`. -/
def ExperimentResult.fromJson (j : Json) : Option ExperimentResult :=
  ((j.getField "test_id").bind Json.asInt).bind fun ti =>
  ((j.getField "assistant_id").bind Json.asStr).bind fun aid =>
  ((j.getField "question").bind Json.asStr).bind fun q =>
  ((j.getField "success").bind Json.asBool).bind fun sc =>
  ((j.getField "error").bind (Json.decodeOpt Json.asStr)).bind fun er =>
  ((j.getField "execution_time").bind Json.asNum).bind fun et =>
  ((j.getField "timestamp").bind Json.asStr).bind fun ts =>
  ((j.getField "message").bind (Json.decodeOpt Message.fromJson)).bind fun ms =>
  some ⟨ti, aid, q, sc, er, et, ts, ms⟩

theorem optMessage_roundtrip :
    ∀ o : Option Message,
      Json.decodeOpt Message.fromJson (Json.encodeOpt Message.toJson o) = some o :=
  Json.decodeOpt_encodeOpt _ _ (fun _ => rfl) message_roundtrip

theorem experimentResult_roundtrip :
    ∀ x : ExperimentResult, ExperimentResult.fromJson (ExperimentResult.toJson x) = some x := by
  intro x
  obtain ⟨ti, aid, q, sc, er, et, ts, ms⟩ := x
  simp [ExperimentResult.toJson, ExperimentResult.fromJson, Json.getField,
    Json.lookupField, Json.asInt, Json.asStr, Json.asBool, Json.asNum,
    optStr_roundtrip, optMessage_roundtrip]

/-- model_dump of the pydantic `GoldenAnswer`. -/
def GoldenAnswer.toJson (x : GoldenAnswer) : Json :=
  .obj [("question", .str x.question),
        ("answer", .str x.answer),
        ("model", .str x.model),
        ("timestamp", .str x.timestamp),
        ("generation_time", .num x.generation_time)]

/-- model_validate of the pydantic `GoldenAnswer`. -/
def GoldenAnswer.fromJson (j : Json) : Option GoldenAnswer :=
  ((j.getField "question").bind Json.asStr).bind fun q =>
  ((j.getField "answer").bind Json.asStr).bind fun a =>
  ((j.getField "model").bind Json.asStr).bind fun m =>
  ((j.getField "timestamp").bind Json.asStr).bind fun ts =>
  ((j.getField "generation_time").bind Json.asNum).bind fun gt =>
  some ⟨q, a, m, ts, gt⟩

theorem goldenAnswer_roundtrip :
    ∀ x : GoldenAnswer, GoldenAnswer.fromJson (GoldenAnswer.toJson x) = some x :=
  fun _ => rfl

/-- model_dump of a `QuestionResult`. -/
def QuestionResult.toJson (x : QuestionResult) : Json :=
  .obj [("question_id", .int x.question_id),
        ("question", .str x.question),
        ("golden_answer", Json.encodeOpt GoldenAnswer.toJson x.golden_answer),
        ("assistant_results", .arr (x.assistant_results.map ExperimentResult.toJson)),
        ("total_assistants", .int (x.total_assistants : Int)),
        ("successful_assistants", .int (x.successful_assistants : Int)),
        ("failed_assistants", .int (x.failed_assistants : Int)),
        ("success_rate", .num x.success_rate),
        ("total_execution_time", .num x.total_execution_time)]

/-- model_validate of a `QuestionResult`. -/
def QuestionResult.fromJson (j : Json) : Option QuestionResult :=
  ((j.getField "question_id").bind Json.asInt).bind fun qid =>
  ((j.getField "question").bind Json.asStr).bind fun q =>
  ((j.getField "golden_answer").bind (Json.decodeOpt GoldenAnswer.fromJson)).bind fun ga =>
  ((j.getField "assistant_results").bind
    (Json.decodeList ExperimentResult.fromJson)).bind fun ars =>
  ((j.getField "total_assistants").bind Json.asNat).bind fun ta =>
  ((j.getField "successful_assistants").bind Json.asNat).bind fun sa =>
  ((j.getField "failed_assistants").bind Json.asNat).bind fun fa =>
  ((j.getField "success_rate").bind Json.asNum).bind fun sr =>
  ((j.getField "total_execution_time").bind Json.asNum).bind fun tet =>
  some ⟨qid, q, ga, ars, ta, sa, fa, sr, tet⟩

theorem optGolden_roundtrip :
    ∀ o : Option GoldenAnswer,
      Json.decodeOpt GoldenAnswer.fromJson (Json.encodeOpt GoldenAnswer.toJson o) = some o :=
  Json.decodeOpt_encodeOpt _ _ (fun _ => rfl) goldenAnswer_roundtrip

theorem questionResult_roundtrip :
    ∀ x : QuestionResult, QuestionResult.fromJson (QuestionResult.toJson x) = some x := by
  intro x
  obtain ⟨qid, q, ga, ars, ta, sa, fa, sr, tet⟩ := x
  simp [QuestionResult.toJson, QuestionResult.fromJson, Json.getField, Json.lookupField,
    Json.asInt, Json.asStr, Json.asNum, Json.asNat_natCast, optGolden_roundtrip,
    Json.decodeList_map ExperimentResult.toJson ExperimentResult.fromJson
      experimentResult_roundtrip]

/-- model_dump of an `ExperimentSummary`. -/
def ExperimentSummary.toJson (x : ExperimentSummary) : Json :=
  .obj [("total_tests", .int (x.total_tests : Int)),
        ("completed_tests", .int (x.completed_tests : Int)),
        ("failed_tests", .int (x.failed_tests : Int)),
        ("success_rate", .num x.success_rate),
        ("total_execution_time", .num x.total_execution_time),
        ("start_time", .str x.start_time),
        ("end_time", Json.encodeOpt Json.str x.end_time),
        ("results", .arr (x.results.map ExperimentResult.toJson)),
        ("question_results", .arr (x.question_results.map QuestionResult.toJson)),
        ("experiment_directory", Json.encodeOpt Json.str x.experiment_directory)]

/-- model_validate of an `ExperimentSummary`. -/
def ExperimentSummary.fromJson (j : Json) : Option ExperimentSummary :=
  ((j.getField "total_tests").bind Json.asNat).bind fun tt =>
  ((j.getField "completed_tests").bind Json.asNat).bind fun ct =>
  ((j.getField "failed_tests").bind Json.asNat).bind fun ft =>
  ((j.getField "success_rate").bind Json.asNum).bind fun sr =>
  ((j.getField "total_execution_time").bind Json.asNum).bind fun tet =>
  ((j.getField "start_time").bind Json.asStr).bind fun st =>
  ((j.getField "end_time").bind (Json.decodeOpt Json.asStr)).bind fun et =>
  ((j.getField "results").bind (Json.decodeList ExperimentResult.fromJson)).bind fun rs =>
  ((j.getField "question_results").bind
    (Json.decodeList QuestionResult.fromJson)).bind fun qrs =>
  ((j.getField "experiment_directory").bind (Json.decodeOpt Json.asStr)).bind fun ed =>
  some ⟨tt, ct, ft, sr, tet, st, et, rs, qrs, ed⟩

/-- C9: serializing an `ExperimentSummary` to the durable JSON format (the
shape written by `model_dump` + `json.dump`) and validating it back yields
a value equal to the original in every field, including the nested
`question_results` list of `QuestionResult` and the flattened `results`
list of `ExperimentResult`, with list order preserved. -/
theorem experiment_summary_roundtrip :
    ∀ x : ExperimentSummary,
      ExperimentSummary.fromJson (ExperimentSummary.toJson x) = some x := by
  intro x
  obtain ⟨tt, ct, ft, sr, tet, st, et, rs, qrs, ed⟩ := x
  simp [ExperimentSummary.toJson, ExperimentSummary.fromJson, Json.getField,
    Json.lookupField, Json.asStr, Json.asNum, Json.asNat_natCast, optStr_roundtrip,
    Json.decodeList_map ExperimentResult.toJson ExperimentResult.fromJson
      experimentResult_roundtrip,
    Json.decodeList_map QuestionResult.toJson QuestionResult.fromJson
      questionResult_roundtrip]
